import Mathlib

set_option maxHeartbeats 1000000

namespace SaveRestricted

/-! Shallow embedding of `src/main.py` (and the private-link canonicalization
shared with `src/bot.py`) of the Save-Any-Restricted-robot repository:
configuration, user statistics, per-user rate limiting, flood-wait handling,
telegram-link parsing, chat resolution with a TTL cache, the per-message
fetch-and-send routine, and the message-link handler that drives batches.

Modelling conventions: timestamps are seconds as `Nat`; sleeps are recorded
as trace actions in milliseconds; provider calls are modelled by environment
records giving each call's outcome; the error-notification replies that the
code sends on failure paths are modelled as always succeeding. -/

structure Config where
  MAX_MESSAGES : Nat
  RATE_LIMIT : Nat
  ADMIN_RATE_LIMIT : Nat
  MAX_FILE_SIZE : Nat
  OWNER_ID : Option Int
  AUTHORIZED_USERS : List Int
  deriving DecidableEq

/-- Embeds `is_owner` (main.py:139-141). Python returns
`CONFIG['OWNER_ID'] and user_id == CONFIG['OWNER_ID']`, so a missing or
zero owner id is falsy and yields `False`. -/
def is_owner (cfg : Config) (user_id : Int) : Bool :=
  match cfg.OWNER_ID with
  | none => false
  | some oid => if oid == 0 then false else user_id == oid

/-- Embeds `is_owner_or_authorized` (main.py:143-145). -/
def is_owner_or_authorized (cfg : Config) (user_id : Int) : Bool :=
  is_owner cfg user_id || cfg.AUTHORIZED_USERS.contains user_id

structure UserStats where
  total_requests : Nat
  successful_requests : Nat
  failed_requests : Nat
  first_seen : Nat
  last_seen : Nat
  bytes_transferred : Nat
  deriving DecidableEq

/-- The dictionary entry created for a user not yet in `user_stats`
(main.py:109-117). -/
def freshStats (now : Nat) : UserStats :=
  { total_requests := 0, successful_requests := 0, failed_requests := 0,
    first_seen := now, last_seen := now, bytes_transferred := 0 }

/-- Embeds `update_user_stats` (main.py:107-125), acting on the single
user's entry of the `user_stats` dictionary (`none` = user absent). -/
def update_user_stats (prev : Option UserStats) (now : Nat) (success : Bool) :
    UserStats :=
  let base := prev.getD (freshStats now)
  let stepped := { base with total_requests := base.total_requests + 1,
                             last_seen := now }
  if success then
    { stepped with successful_requests := stepped.successful_requests + 1 }
  else
    { stepped with failed_requests := stepped.failed_requests + 1 }

/-- Embeds `is_rate_limited` (main.py:127-137), acting on the single user's
entry of `user_last_request` (`none` = user absent). Returns the Python pair
`(limited, wait)` together with the user's entry after the call. -/
def is_rate_limited (cfg : Config) (user_id : Int) (last : Option Nat)
    (now : Nat) : (Bool × Nat) × Option Nat :=
  let rate_limit :=
    if is_owner_or_authorized cfg user_id then cfg.ADMIN_RATE_LIMIT
    else cfg.RATE_LIMIT
  match last with
  | some prev =>
    if now - prev < rate_limit then
      ((true, rate_limit - (now - prev)), some prev)
    else
      ((false, 0), some now)
  | none => ((false, 0), some now)

/-- Embeds `handle_flood_wait` (main.py:147-151): the number of seconds the
coroutine sleeps, `e.value` when the exception carries one, else 60. -/
def handle_flood_wait (value : Option Nat) : Nat :=
  match value with
  | some v => v
  | none => 60

/-! Link parsing (main.py:153-201). Python strings are modelled as
`List Char`; the regex character classes are modelled on ASCII: `\d` as
a decimal digit, `\w` as letter, digit or underscore, `str.strip` as
removing whitespace characters from both ends. `re.match` anchors at the
start of the string and permits trailing characters. -/

def isDigitCh (c : Char) : Bool := '0' ≤ c && c ≤ '9'

def isSpaceCh (c : Char) : Bool :=
  c == ' ' || c == '\t' || c == '\n' || c == '\r' || c == '\x0b' || c == '\x0c'

def isWordCh (c : Char) : Bool := c.isAlpha || isDigitCh c || c == '_'

/-- Python `str.strip()` on a character list. -/
def stripChars (cs : List Char) : List Char :=
  ((cs.dropWhile isSpaceCh).reverse.dropWhile isSpaceCh).reverse

/-- Match a literal prefix, returning the remaining characters. -/
def dropPrefixL : List Char → List Char → Option (List Char)
  | [], l => some l
  | _ :: _, [] => none
  | p :: ps, c :: cs => if p == c then dropPrefixL ps cs else none

/-- Greedy `\d+`-style scan: the maximal leading run of digits and the rest. -/
def takeDigits : List Char → List Char × List Char
  | [] => ([], [])
  | c :: cs =>
    if isDigitCh c then
      let r := takeDigits cs
      (c :: r.1, r.2)
    else ([], c :: cs)

/-- Greedy `\w+`-style scan. -/
def takeWordChars : List Char → List Char × List Char
  | [] => ([], [])
  | c :: cs =>
    if isWordCh c then
      let r := takeWordChars cs
      (c :: r.1, r.2)
    else ([], c :: cs)

/-- Greedy `[^/]+`-style scan: the maximal leading run without a slash. -/
def takeUntilSlash : List Char → List Char × List Char
  | [] => ([], [])
  | c :: cs =>
    if c == '/' then ([], c :: cs)
    else
      let r := takeUntilSlash cs
      (c :: r.1, r.2)

/-- Python `int()` of a digit string. -/
def digitsToNat (cs : List Char) : Nat :=
  cs.foldl (fun acc c => acc * 10 + (c.toNat - 48)) 0

inductive ParsedLink where
  | privateLink (chat_id : Int) (start_msg : Nat) (end_msg : Option Nat)
  | publicLink (username : List Char) (start_msg : Nat) (end_msg : Option Nat)
  | inviteLink (invite_hash : List Char)
  deriving DecidableEq

/-- The message-id grammar `(\d+)(?:-(\d+))?` shared by the private and
public patterns: a start id and an optional dash-separated end id. -/
def parseMsgIds (rest : List Char) : Option (Nat × Option Nat) :=
  let r := takeDigits rest
  if r.1.isEmpty then none
  else
    let e :=
      match r.2 with
      | '-' :: rest4 =>
        let r3 := takeDigits rest4
        if r3.1.isEmpty then none else some (digitsToNat r3.1)
      | _ => none
    some (digitsToNat r.1, e)

def privPrefix : List Char := "https://t.me/c/".toList

def pubPrefix : List Char := "https://t.me/".toList

def invPrefix : List Char := "https://t.me/+".toList

/-- The private-link pattern `https://t\.me/c/(\d+)/(\d+)(?:-(\d+))?`
(main.py:158,163-176). The chat id is canonicalized as
`int("-100" + channel_id_part)` (main.py:168), i.e. the negative of the
value of the digit string `"100"` followed by the captured digits. -/
def parsePrivateLink (cs : List Char) : Option ParsedLink :=
  match dropPrefixL privPrefix cs with
  | none => none
  | some rest =>
    let r := takeDigits rest
    if r.1.isEmpty then none
    else
      match r.2 with
      | '/' :: rest2 =>
        match parseMsgIds rest2 with
        | none => none
        | some (s, e) =>
          some (.privateLink (-(Int.ofNat (digitsToNat ('1' :: '0' :: '0' :: r.1)))) s e)
      | _ => none

/-- The public-link pattern `https://t\.me/([^/]+)/(\d+)(?:-(\d+))?`
(main.py:159,179-191): the username is everything up to the first slash. -/
def parsePublicLink (cs : List Char) : Option ParsedLink :=
  match dropPrefixL pubPrefix cs with
  | none => none
  | some rest =>
    let r := takeUntilSlash rest
    if r.1.isEmpty then none
    else
      match r.2 with
      | '/' :: rest2 =>
        match parseMsgIds rest2 with
        | none => none
        | some (s, e) => some (.publicLink r.1 s e)
      | _ => none

/-- The invite-link pattern `https://t\.me/\+(\w+)` (main.py:160,194-199). -/
def parseInviteLink (cs : List Char) : Option ParsedLink :=
  match dropPrefixL invPrefix cs with
  | none => none
  | some rest =>
    let r := takeWordChars rest
    if r.1.isEmpty then none else some (.inviteLink r.1)

/-- Embeds `parse_telegram_link` (main.py:153-201): strip, then try the
private, public and invite patterns in that order. -/
def parse_telegram_link (link : List Char) : Option ParsedLink :=
  let cs := stripChars link
  match parsePrivateLink cs with
  | some p => some p
  | none =>
    match parsePublicLink cs with
    | some p => some p
    | none => parseInviteLink cs

/-- A decimal digit as an abstract value in `Fin 10`, rendered as the
character the link would contain. -/
def digitChar (d : Fin 10) : Char := Char.ofNat (48 + d.val)

def digitsOf (ds : List (Fin 10)) : List Char := ds.map digitChar

/-- The numeric value a digit-sequence denotes. -/
def natOfDigits (ds : List (Fin 10)) : Nat :=
  ds.foldl (fun acc d => acc * 10 + d.val) 0

/-! Chat resolution with cache (main.py:203-239). The `chat_cache`
dictionary is modelled as an association list from the string key to the
pair `(cached_time, chat_info)`; the provider's `get_chat` and
`get_dialogs` calls are modelled by an environment record fixing their
outcomes. `PeerIdInvalid`, `KeyError` and `ValueError` share one handler
in the source and are collapsed to a single constructor. -/

structure ChatInfo where
  id : Int
  title : List Char
  deriving DecidableEq

abbrev ChatCache := List (List Char × Nat × ChatInfo)

def cacheLookup (cache : ChatCache) (k : List Char) : Option (Nat × ChatInfo) :=
  match cache.find? (fun e => e.1 == k) with
  | some e => some e.2
  | none => none

def cacheInsert (cache : ChatCache) (k : List Char) (v : Nat × ChatInfo) :
    ChatCache :=
  (k, v) :: cache.filter (fun e => e.1 != k)

def cacheRemove (cache : ChatCache) (k : List Char) : ChatCache :=
  cache.filter (fun e => e.1 != k)

inductive GetChatResult where
  | ok (info : ChatInfo)
  | peerInvalid
  | channelPrivate
  | otherError (msg : List Char)
  deriving DecidableEq

structure ResolveEnv where
  get_chat : GetChatResult
  dialogs : List ChatInfo
  deriving DecidableEq

inductive ResolveRes where
  | ok (info : ChatInfo)
  | errPeerInvalid
  | errChannelPrivate
  | errOther (msg : List Char)
  deriving DecidableEq

/-- The dictionary key `str(chat_id)` used by the chat cache. -/
def cacheKey (chat_id : Int) : List Char := (toString chat_id).toList

/-- Embeds `resolve_chat_with_cache` (main.py:203-239). Returns the
result, the cache after the call, and the number of `get_chat` lookup
calls issued to the provider. -/
def resolve_chat_with_cache (env : ResolveEnv) (cache : ChatCache)
    (now : Nat) (chat_id : Int) : ResolveRes × ChatCache × Nat :=
  let cache_key := cacheKey chat_id
  let fresh : ResolveRes × ChatCache × Nat :=
    match env.get_chat with
    | .ok info => (.ok info, cacheInsert cache cache_key (now, info), 1)
    | .peerInvalid =>
      match env.dialogs.find? (fun d => d.id == chat_id) with
      | some d => (.ok d, cacheInsert cache cache_key (now, d), 1)
      | none => (.errPeerInvalid, cache, 1)
    | .channelPrivate => (.errChannelPrivate, cache, 1)
    | .otherError m => (.errOther m, cacheRemove cache cache_key, 1)
  match cacheLookup cache cache_key with
  | some (cached_time, chat_info) =>
    if now - cached_time < 3600 then (.ok chat_info, cache, 0) else fresh
  | none => fresh

/-! Per-message fetch and relay (main.py:241-339). Provider calls are
modelled by a `FetchEnv` fixing the outcome of chat resolution, of
`get_messages`, and of the single content send step; replies and sleeps
are recorded as a trace of actions, with sleeps in milliseconds. A
`FloodWait` raised while sending media is caught by the inner generic
`except Exception` handler (main.py:317-320), not by the outer
`except FloodWait` handler. -/

inductive MediaKind where
  | document (file_id : List Char) (file_size : Nat)
  | photo (file_id : List Char) (file_size : Nat)
  | video (file_id : List Char) (file_size : Nat)
  | audio (file_id : List Char) (file_size : Nat)
  | voice (file_id : List Char) (file_size : Nat)
  | video_note (file_id : List Char) (file_size : Nat)
  | sticker (file_id : List Char) (file_size : Nat)
  | animation (file_id : List Char) (file_size : Nat)
  | unsupported
  deriving DecidableEq

structure TgMessage where
  text : Option (List Char)
  caption : Option (List Char)
  media : Option MediaKind
  deriving DecidableEq

/-- Python truthiness of an optional string: `None` and `""` are falsy. -/
def strTruthy : Option (List Char) → Bool
  | some s => !s.isEmpty
  | none => false

/-- Python `a or b` on optional strings, defaulting to `""`. -/
def pyOr (a b : Option (List Char)) : List Char :=
  match a with
  | some s => if s.isEmpty then b.getD [] else s
  | none => b.getD []

inductive Action where
  | replyText (content : List Char)
  | sendDocument (file_id : List Char)
  | sendPhoto (file_id : List Char)
  | sendVideo (file_id : List Char)
  | sendAudio (file_id : List Char)
  | sendVoice (file_id : List Char)
  | sendVideoNote (file_id : List Char)
  | sendSticker (file_id : List Char)
  | sendAnimation (file_id : List Char)
  | sleepMs (ms : Nat)
  deriving DecidableEq

inductive StepResult (α : Type) where
  | ok (a : α)
  | floodWait (seconds : Nat)
  | err (msg : List Char)
  deriving DecidableEq

inductive ChatResolution where
  | ok (info : ChatInfo)
  | channelPrivate
  | userNotParticipant
  | peerInvalid
  | otherErr (msg : List Char)
  deriving DecidableEq

structure FetchEnv where
  chatResolution : ChatResolution
  getMessage : StepResult (Option TgMessage)
  sendStep : StepResult Unit
  deriving DecidableEq

/-- The 4096-character chunks of a long text (main.py:279-282). -/
def chunksOf (cs : List Char) : List (List Char) :=
  if cs.length ≤ 4096 then [cs]
  else cs.take 4096 :: chunksOf (cs.drop 4096)
termination_by cs.length
decreasing_by simp; omega

/-- The trace of the text path (main.py:275-284): chunked replies with a
half-second sleep each when longer than 4096 characters, else one reply. -/
def sendTextActions (content : List Char) : List Action :=
  if content.length > 4096 then
    ((chunksOf content).map
      (fun ch => [Action.replyText ch, Action.sleepMs 500])).flatten
  else [Action.replyText content]

/-- One media send attempt inside the inner try (main.py:296-320): the
send call is issued; on any raised exception, flood waits included, the
inner handler replies with a media error and the function returns
`False`. -/
def mediaSend (a : Action) (r : StepResult Unit) : Bool × List Action :=
  match r with
  | .ok _ => (true, [a, .sleepMs 800])
  | .floodWait w =>
    (false, [a, .replyText ("Media error: flood wait ".toList ++ (toString w).toList)])
  | .err m => (false, [a, .replyText ("Media error: ".toList ++ m)])

/-- The text-or-media dispatch once a message is in hand
(main.py:275-323). -/
def sendContent (cfg : Config) (msg : TgMessage) (send : StepResult Unit) :
    Bool × List Action :=
  if strTruthy msg.text || strTruthy msg.caption then
    let content := pyOr msg.text msg.caption
    match send with
    | .ok _ => (true, sendTextActions content ++ [.sleepMs 800])
    | .floodWait w =>
      (false, [.sleepMs (1000 * handle_flood_wait (some w)),
               .replyText ("Rate limited - wait ".toList ++ (toString w).toList ++ "s".toList)])
    | .err m => (false, [.replyText ("Error: ".toList ++ m)])
  else
    match msg.media with
    | none => (false, [.replyText "Empty message".toList])
    | some mk =>
      match mk with
      | .document fid size =>
        if size > cfg.MAX_FILE_SIZE then
          (false, [.replyText "File too large".toList])
        else mediaSend (.sendDocument fid) send
      | .photo fid _ => mediaSend (.sendPhoto fid) send
      | .video fid _ => mediaSend (.sendVideo fid) send
      | .audio fid _ => mediaSend (.sendAudio fid) send
      | .voice fid _ => mediaSend (.sendVoice fid) send
      | .video_note fid _ => mediaSend (.sendVideoNote fid) send
      | .sticker fid _ => mediaSend (.sendSticker fid) send
      | .animation fid _ => mediaSend (.sendAnimation fid) send
      | .unsupported => (false, [.replyText "Unsupported media type".toList])

/-- Embeds `fetch_and_send_message` (main.py:241-339): resolve the chat
(replying and failing on resolution errors), get the message (a
`FloodWait` here reaches the outer handler, which sleeps the advised
duration and fails), then dispatch on content. Only documents are
size-checked (main.py:290-294). -/
def fetch_and_send_message (cfg : Config) (env : FetchEnv) :
    Bool × List Action :=
  match env.chatResolution with
  | .channelPrivate =>
    (false, [.replyText "Private channel - userbot needs access. Use /preload with invite link.".toList])
  | .userNotParticipant =>
    (false, [.replyText "Userbot not a member of this channel. Use /preload to join.".toList])
  | .peerInvalid =>
    (false, [.replyText "Cannot access chat. Try /preload".toList])
  | .otherErr m =>
    (false, [.replyText ("Chat access error: ".toList ++ m)])
  | .ok _ =>
    match env.getMessage with
    | .floodWait w =>
      (false, [.sleepMs (1000 * handle_flood_wait (some w)),
               .replyText ("Rate limited - wait ".toList ++ (toString w).toList ++ "s".toList)])
    | .err m => (false, [.replyText ("Error: ".toList ++ m)])
    | .ok none => (false, [.replyText "Message not found".toList])
    | .ok (some msg) => sendContent cfg msg env.sendStep

/-! The message-link handler (main.py:341-420). Per-user state is the
user's entries of `user_last_request` and `user_stats`; each message id's
fetch is modelled by an environment `envs : Nat → FetchEnv` giving the
provider outcomes for that id. Progress edits of the status message and
the half-second inter-item sleeps are display-only and not recorded. -/

structure UserState where
  last_request : Option Nat
  stats : Option UserStats
  deriving DecidableEq

inductive HandleResult where
  | rateLimited (wait : Nat)
  | invalidFormat
  | inviteRedirect
  | tooMany (max_allowed : Nat)
  | batchDone (outcomes : List (Nat × Bool)) (successful failed : Nat)
  | single (success : Bool)
  deriving DecidableEq

/-- The ascending id sequence `range(start_msg, end_msg + 1)`. -/
def batchIds (start_msg end_msg : Nat) : List Nat :=
  List.range' start_msg (end_msg + 1 - start_msg)

/-- The loop of main.py:392-397: one fetch per id, in list order,
recording each id's success flag as its outcome. -/
def runBatch (run : Nat → Bool) (ids : List Nat) : List (Nat × Bool) :=
  ids.map (fun i => (i, run i))

def countTrue (outs : List (Nat × Bool)) : Nat :=
  (outs.filter (fun o => o.2)).length

def countFalse (outs : List (Nat × Bool)) : Nat :=
  (outs.filter (fun o => !o.2)).length

/-- The per-request cap of main.py:380: `MAX_MESSAGES * 2` for the owner
and authorized users, else `MAX_MESSAGES`. -/
def maxAllowed (cfg : Config) (user_id : Int) : Nat :=
  if is_owner_or_authorized cfg user_id then cfg.MAX_MESSAGES * 2
  else cfg.MAX_MESSAGES

/-- The range-or-single part of the handler (main.py:374-415), entered
after rate limiting and parsing succeed. -/
def processParsed (cfg : Config) (user_id : Int) (now : Nat)
    (envs : Nat → FetchEnv) (st : UserState) (start_msg : Nat)
    (end_msg : Option Nat) : HandleResult × UserState :=
  match end_msg with
  | some e0 =>
    let s := if start_msg > e0 then e0 else start_msg
    let e := if start_msg > e0 then start_msg else e0
    let message_count := e - s + 1
    if message_count > maxAllowed cfg user_id then
      (.tooMany (maxAllowed cfg user_id),
       { st with stats := some (update_user_stats st.stats now false) })
    else
      let outs := runBatch (fun i => (fetch_and_send_message cfg (envs i)).1)
        (batchIds s e)
      (.batchDone outs (countTrue outs) (countFalse outs),
       { st with stats := some (update_user_stats st.stats now true) })
  | none =>
    let success := (fetch_and_send_message cfg (envs start_msg)).1
    (.single success,
     { st with stats := some (update_user_stats st.stats now success) })

/-- Embeds `handle_message_link` (main.py:341-420): rate-limit check
first (which records the request time when the request is allowed), then
parsing (invalid links and invite links return early), then the range or
single-message processing. -/
def handle_message_link (cfg : Config) (user_id : Int) (now : Nat)
    (text : List Char) (envs : Nat → FetchEnv) (st : UserState) :
    HandleResult × UserState :=
  let rl := is_rate_limited cfg user_id st.last_request now
  let st1 : UserState := { st with last_request := rl.2 }
  if rl.1.1 then
    (.rateLimited rl.1.2,
     { st1 with stats := some (update_user_stats st1.stats now false) })
  else
    match parse_telegram_link text with
    | none =>
      (.invalidFormat,
       { st1 with stats := some (update_user_stats st1.stats now false) })
    | some (.inviteLink _) => (.inviteRedirect, st1)
    | some (.privateLink _ s e) => processParsed cfg user_id now envs st1 s e
    | some (.publicLink _ s e) => processParsed cfg user_id now envs st1 s e

/-! Concrete sample inputs used by witnesses and counterexamples. -/

/-- A standard configuration: the source defaults `MAX_MESSAGES = 20`,
`RATE_LIMIT = 3`, `ADMIN_RATE_LIMIT = 1`, `MAX_FILE_SIZE = 50 MiB`, no
owner, no authorized users. -/
def cfg0 : Config :=
  { MAX_MESSAGES := 20, RATE_LIMIT := 3, ADMIN_RATE_LIMIT := 1,
    MAX_FILE_SIZE := 52428800, OWNER_ID := none, AUTHORIZED_USERS := [] }

def chatInfo0 : ChatInfo := { id := -100123, title := "demo".toList }

/-- An environment whose `get_messages` call raises `FloodWait(10)`. -/
def envFlood : FetchEnv :=
  { chatResolution := .ok chatInfo0, getMessage := .floodWait 10,
    sendStep := .ok () }

/-- A fetched message carrying a 50 MiB + 1 byte video and no text. -/
def msgBigVideo : TgMessage :=
  { text := none, caption := none,
    media := some (.video "vid1".toList 52428801) }

def envBigVideo : FetchEnv :=
  { chatResolution := .ok chatInfo0, getMessage := .ok (some msgBigVideo),
    sendStep := .ok () }

/-- A fetched message carrying a 50 MiB + 1 byte document and no text. -/
def msgBigDoc : TgMessage :=
  { text := none, caption := none,
    media := some (.document "doc1".toList 52428801) }

def envBigDoc : FetchEnv :=
  { chatResolution := .ok chatInfo0, getMessage := .ok (some msgBigDoc),
    sendStep := .ok () }

/-- A fetched message carrying a 50 MiB + 1 byte document together with a
nonempty caption. -/
def msgCapDoc : TgMessage :=
  { text := none, caption := some "see file".toList,
    media := some (.document "doc2".toList 52428801) }

def envCapDoc : FetchEnv :=
  { chatResolution := .ok chatInfo0, getMessage := .ok (some msgCapDoc),
    sendStep := .ok () }

/-- A resolver environment whose direct lookup succeeds. -/
def resEnv0 : ResolveEnv := { get_chat := .ok chatInfo0, dialogs := [] }

/-- The invariant that every user's statistics counters are consistent. -/
def statsInvariant (s : UserStats) : Prop :=
  s.total_requests = s.successful_requests + s.failed_requests

/-! Helper lemmas shared by the claim theorems. -/

theorem rl_limited_snd (cfg : Config) (user_id : Int) (t now : Nat)
    (h : (is_rate_limited cfg user_id (some t) now).1.1 = true) :
    (is_rate_limited cfg user_id (some t) now).2 = some t := by
  by_cases hc : now - t <
      (if is_owner_or_authorized cfg user_id then cfg.ADMIN_RATE_LIMIT
       else cfg.RATE_LIMIT)
  · simp [is_rate_limited, hc]
  · simp [is_rate_limited, hc] at h

theorem rl_allowed_snd (cfg : Config) (user_id : Int) (last : Option Nat)
    (now : Nat) (h : (is_rate_limited cfg user_id last now).1.1 = false) :
    (is_rate_limited cfg user_id last now).2 = some now := by
  cases last with
  | none => simp [is_rate_limited]
  | some t =>
    by_cases hc : now - t <
        (if is_owner_or_authorized cfg user_id then cfg.ADMIN_RATE_LIMIT
         else cfg.RATE_LIMIT)
    · simp [is_rate_limited, hc] at h
    · simp [is_rate_limited, hc]

theorem rl_limited_iff (cfg : Config) (user_id : Int) (t now : Nat) :
    (is_rate_limited cfg user_id (some t) now).1.1 = true ↔
      now - t < (if is_owner_or_authorized cfg user_id then cfg.ADMIN_RATE_LIMIT
                 else cfg.RATE_LIMIT) := by
  by_cases hc : now - t <
      (if is_owner_or_authorized cfg user_id then cfg.ADMIN_RATE_LIMIT
       else cfg.RATE_LIMIT)
  · simp [is_rate_limited, hc]
  · simp [is_rate_limited, hc]

/-! C3. The claim says the flood-wait pause is `min(duration, cap)` with a
hard ceiling (e.g. 300 s). `handle_flood_wait` (main.py:147-151) sleeps
the full advised duration with no ceiling. -/

/-- C3 counterexample: a provider-advised duration of 1000 s makes the
controller sleep 1000 s, not `min 1000 300 = 300`. -/
theorem C3_counterexample :
    handle_flood_wait (some 1000) = 1000 ∧
    handle_flood_wait (some 1000) ≠ min 1000 300 := by
  decide

/-- C3 amended: for every provider-issued backoff directive with advised
duration `d`, the controller sleeps exactly `d` seconds (60 when the
exception carries no value); no cap is applied. -/
theorem C3_flood_wait_uncapped (d : Nat) :
    handle_flood_wait (some d) = d ∧ handle_flood_wait none = 60 :=
  ⟨rfl, rfl⟩

/-- C9: when the pacing check denies a request the recorded last-request
timestamp is unchanged; it is set to `now` exactly when the request is
allowed; and denial happens exactly when the elapsed time is below the
caller's tier interval. -/
theorem C9_denied_preserves_timestamp (cfg : Config) (user_id : Int)
    (t now : Nat) :
    ((is_rate_limited cfg user_id (some t) now).1.1 = true →
      (is_rate_limited cfg user_id (some t) now).2 = some t)
  ∧ ((is_rate_limited cfg user_id (some t) now).1.1 = false →
      (is_rate_limited cfg user_id (some t) now).2 = some now)
  ∧ ((is_rate_limited cfg user_id (some t) now).1.1 = true ↔
      now - t < (if is_owner_or_authorized cfg user_id then cfg.ADMIN_RATE_LIMIT
                 else cfg.RATE_LIMIT)) :=
  ⟨rl_limited_snd cfg user_id t now,
   rl_allowed_snd cfg user_id (some t) now,
   rl_limited_iff cfg user_id t now⟩

/-- C9 witness: under `cfg0` a standard user denied at `now = 1` after a
request at `t = 0` keeps timestamp 0; allowed at `now = 5` it becomes 5. -/
theorem C9_witness :
    (is_rate_limited cfg0 7 (some 0) 1).2 = some 0
  ∧ (is_rate_limited cfg0 7 (some 0) 5).2 = some 5 :=
  ⟨(C9_denied_preserves_timestamp cfg0 7 0 1).1 (by decide),
   (C9_denied_preserves_timestamp cfg0 7 0 5).2.1 (by decide)⟩

/-- C10: after every `update_user_stats` call the statistics satisfy
`total = successful + failed`, and `total` grows by exactly one. -/
theorem C10_stats_invariant (prev : Option UserStats) (now : Nat)
    (success : Bool) (h : ∀ s, prev = some s → statsInvariant s) :
    statsInvariant (update_user_stats prev now success)
  ∧ (update_user_stats prev now success).total_requests =
      (match prev with | some s => s.total_requests | none => 0) + 1 := by
  cases prev with
  | none =>
    cases success <;> simp [update_user_stats, freshStats, statsInvariant]
  | some s =>
    have hs := h s rfl
    unfold statsInvariant at hs
    cases success <;>
      simp [update_user_stats, statsInvariant] <;> omega

/-- C10 witness: updating a fresh user's statistics with a success. -/
theorem C10_witness :
    statsInvariant (update_user_stats (some (freshStats 0)) 5 true)
  ∧ (update_user_stats (some (freshStats 0)) 5 true).total_requests = 0 + 1 :=
  C10_stats_invariant (some (freshStats 0)) 5 true
    (fun s hs => by cases hs; rfl)

/-! C2. The claim says a transient failure triggers a backoff and then a
single retry of the same id. In the source (main.py:392-397) each id is
fetched exactly once: a `FloodWait` makes `fetch_and_send_message` sleep
the advised duration and return `False` (main.py:329-333), the id is
counted as failed, and the loop advances. -/

/-- C2 counterexample: with every fetch failing on a transient
`FloodWait(10)`, each id of the batch `[5, 6]` is attempted exactly once
and recorded as failed; there is no second attempt on the same id. -/
theorem C2_counterexample :
    fetch_and_send_message cfg0 envFlood =
      (false, [.sleepMs 10000,
               .replyText "Rate limited - wait 10s".toList])
  ∧ runBatch (fun _ => (fetch_and_send_message cfg0 envFlood).1) [5, 6] =
      [(5, false), (6, false)] := by
  exact ⟨rfl, rfl⟩

/-- C2 amended: on a transient (`FloodWait`) failure the orchestrator
invokes the backoff handler (sleeping the advised duration) and records
the id as failed; every id in a batch is attempted exactly once, in list
order, with no retry. -/
theorem C2_no_retry_single_attempt (cfg : Config) (env : FetchEnv)
    (f : Nat → Bool) (ids : List Nat) (info : ChatInfo) (w : Nat)
    (h1 : env.chatResolution = .ok info)
    (h2 : env.getMessage = .floodWait w) :
    fetch_and_send_message cfg env =
      (false, [.sleepMs (1000 * handle_flood_wait (some w)),
               .replyText ("Rate limited - wait ".toList ++
                 (toString w).toList ++ "s".toList)])
  ∧ (runBatch f ids).map Prod.fst = ids := by
  constructor
  · unfold fetch_and_send_message
    rw [h1, h2]
  · simp [runBatch, List.map_map, Function.comp_def]

/-- C2 witness: the amended statement at `cfg0`, `envFlood`, batch
`[5, 6]`. -/
theorem C2_witness :
    fetch_and_send_message cfg0 envFlood =
      (false, [.sleepMs (1000 * handle_flood_wait (some 10)),
               .replyText ("Rate limited - wait ".toList ++
                 (toString 10).toList ++ "s".toList)])
  ∧ (runBatch (fun _ => false) [5, 6]).map Prod.fst = [5, 6] :=
  C2_no_retry_single_attempt cfg0 envFlood (fun _ => false) [5, 6]
    chatInfo0 10 rfl rfl

/-! C4. The claim says any media whose size exceeds `MAX_FILE_SIZE` is
rejected with a too-large failure before any send, regardless of kind.
The source checks the size only for documents (main.py:290-294), and
only on the media branch: a message with a truthy text or caption is
routed to the text branch at main.py:275, which sends the text/caption
and returns `True` without ever inspecting the media, so even an
oversized document escapes the check when it carries a caption. -/

/-- C4 counterexample: a video of 52428801 bytes, above the
52428800-byte ceiling of `cfg0`, is sent successfully instead of being
rejected; and an equally oversized document carrying a caption is routed
to the text branch, which sends the caption and reports success without
any size check. -/
theorem C4_counterexample :
    fetch_and_send_message cfg0 envBigVideo =
      (true, [.sendVideo "vid1".toList, .sleepMs 800])
  ∧ fetch_and_send_message cfg0 envCapDoc =
      (true, [.replyText "see file".toList, .sleepMs 800])
  ∧ 52428801 > cfg0.MAX_FILE_SIZE := by
  exact ⟨rfl, rfl, by decide⟩

/-- C4 amended: the size ceiling is enforced only for documents in
messages with no truthy text or caption: such a document whose
`file_size` exceeds `MAX_FILE_SIZE` is rejected with a too-large reply
and a failure before any send attempt. A message with a truthy caption
(or text) is routed to the text branch, which sends the text/caption and
reports success without size-checking the media, even for an oversized
document; and non-document media (a video, for example) is sent
regardless of its size. -/
theorem C4_document_size_check (cfg : Config) (env : FetchEnv)
    (info : ChatInfo) (msg : TgMessage) (fid : List Char) (size : Nat)
    (hres : env.chatResolution = .ok info)
    (hget : env.getMessage = .ok (some msg)) :
    (strTruthy msg.text = false → strTruthy msg.caption = false →
      msg.media = some (.document fid size) → size > cfg.MAX_FILE_SIZE →
      fetch_and_send_message cfg env =
        (false, [.replyText "File too large".toList]))
  ∧ (strTruthy msg.caption = true → env.sendStep = .ok () →
      fetch_and_send_message cfg env =
        (true, sendTextActions (pyOr msg.text msg.caption) ++ [.sleepMs 800]))
  ∧ (strTruthy msg.text = false → strTruthy msg.caption = false →
      msg.media = some (.video fid size) →
      fetch_and_send_message cfg env =
        mediaSend (.sendVideo fid) env.sendStep) := by
  refine ⟨?_, ?_, ?_⟩
  · intro htext hcap hm hsize
    unfold fetch_and_send_message
    rw [hres, hget]
    show sendContent cfg msg env.sendStep = _
    unfold sendContent
    rw [htext, hcap, hm]
    simp [hsize]
  · intro hcap hsend
    unfold fetch_and_send_message
    rw [hres, hget]
    show sendContent cfg msg env.sendStep = _
    unfold sendContent
    rw [hcap, hsend]
    simp
  · intro htext hcap hm
    unfold fetch_and_send_message
    rw [hres, hget]
    show sendContent cfg msg env.sendStep = _
    unfold sendContent
    rw [htext, hcap, hm]
    simp

/-- C4 witness: the amended statement at `cfg0`: an uncaptioned document
of 52428801 bytes is rejected, and the same-size document with a caption
is routed to the text branch and succeeds. -/
theorem C4_witness :
    fetch_and_send_message cfg0 envBigDoc =
      (false, [.replyText "File too large".toList])
  ∧ fetch_and_send_message cfg0 envCapDoc =
      (true, sendTextActions (pyOr msgCapDoc.text msgCapDoc.caption) ++
        [.sleepMs 800]) :=
  ⟨(C4_document_size_check cfg0 envBigDoc chatInfo0 msgBigDoc
      "doc1".toList 52428801 rfl rfl).1 rfl rfl rfl (by decide),
   (C4_document_size_check cfg0 envCapDoc chatInfo0 msgCapDoc
      "doc2".toList 52428801 rfl rfl).2.1 rfl rfl⟩

theorem cacheLookup_insert (cache : ChatCache) (k : List Char)
    (v : Nat × ChatInfo) : cacheLookup (cacheInsert cache k v) k = some v := by
  simp [cacheLookup, cacheInsert, List.find?]

/-- C6: after a successful fresh resolve at time `t` (a cache miss served
by one provider lookup), a second resolve of the same reference at any
`t2` with `t2 - t < 3600` returns the cached `ChatInfo`, leaves the cache
unchanged, and issues zero provider lookups. -/
theorem C6_cache_hit_within_ttl (env env2 : ResolveEnv) (cache : ChatCache)
    (t t2 : Nat) (chat_id : Int) (info : ChatInfo)
    (h0 : cacheLookup cache (cacheKey chat_id) = none)
    (h1 : env.get_chat = .ok info)
    (htt : t2 - t < 3600) :
    resolve_chat_with_cache env cache t chat_id =
      (.ok info, cacheInsert cache (cacheKey chat_id) (t, info), 1)
  ∧ resolve_chat_with_cache env2
      (cacheInsert cache (cacheKey chat_id) (t, info)) t2 chat_id =
      (.ok info, cacheInsert cache (cacheKey chat_id) (t, info), 0) := by
  constructor
  · simp [resolve_chat_with_cache, h0, h1]
  · simp [resolve_chat_with_cache, cacheLookup_insert, htt]

/-- C6 witness: a fresh resolve at `t = 0` followed by a resolve at
`t2 = 100` of chat `-100123` under `resEnv0`. -/
theorem C6_witness :
    resolve_chat_with_cache resEnv0 [] 0 (-100123) =
      (.ok chatInfo0, cacheInsert [] (cacheKey (-100123)) (0, chatInfo0), 1)
  ∧ resolve_chat_with_cache resEnv0
      (cacheInsert [] (cacheKey (-100123)) (0, chatInfo0)) 100 (-100123) =
      (.ok chatInfo0, cacheInsert [] (cacheKey (-100123)) (0, chatInfo0), 0) :=
  C6_cache_hit_within_ttl resEnv0 resEnv0 [] 0 100 (-100123) chatInfo0
    rfl rfl (by decide)

/-! C1. The claim says an over-long range is clamped to its first `max`
ids and still processed. In the source (main.py:379-385) such a range is
rejected outright: the handler replies, records a failed request and
returns without fetching anything. -/

/-- C1 counterexample: under `cfg0` (maximum 20) a standard user sending
the range link 1-100 gets `Too many messages` and zero ids are processed,
rather than the first 20. -/
theorem C1_counterexample :
    handle_message_link cfg0 7 0 "https://t.me/c/123/1-100".toList
      (fun _ => envFlood) { last_request := none, stats := none } =
      (.tooMany 20,
       { last_request := some 0,
         stats := some (update_user_stats none 0 false) }) := by
  rfl

/-- C1 amended: a parsed range whose length exceeds the per-user maximum
is rejected with `Too many messages` and a failed-request record, and no
message is processed; a range within the maximum is processed in full,
its outcome list covering exactly all `end - start + 1` ids. -/
theorem C1_range_over_max_rejected (cfg : Config) (user_id : Int)
    (now : Nat) (envs : Nat → FetchEnv) (st : UserState) (s e : Nat)
    (hse : s ≤ e) :
    (e - s + 1 > maxAllowed cfg user_id →
      processParsed cfg user_id now envs st s (some e) =
        (.tooMany (maxAllowed cfg user_id),
         { st with stats := some (update_user_stats st.stats now false) }))
  ∧ (e - s + 1 ≤ maxAllowed cfg user_id →
      processParsed cfg user_id now envs st s (some e) =
        (.batchDone
           (runBatch (fun i => (fetch_and_send_message cfg (envs i)).1)
             (batchIds s e))
           (countTrue (runBatch (fun i => (fetch_and_send_message cfg (envs i)).1)
             (batchIds s e)))
           (countFalse (runBatch (fun i => (fetch_and_send_message cfg (envs i)).1)
             (batchIds s e))),
         { st with stats := some (update_user_stats st.stats now true) })
      ∧ (runBatch (fun i => (fetch_and_send_message cfg (envs i)).1)
           (batchIds s e)).length = e - s + 1) := by
  have hswap : ¬ (s > e) := by omega
  constructor
  · intro h
    unfold processParsed
    simp only [if_neg hswap]
    rw [if_pos h]
  · intro h
    unfold processParsed
    simp only [if_neg hswap]
    rw [if_neg (by omega)]
    refine ⟨rfl, ?_⟩
    simp [runBatch, batchIds]
    omega

/-- C1 witness: the amended statement's rejection branch at `cfg0`, user
7, range 1-100. -/
theorem C1_witness :
    processParsed cfg0 7 0 (fun _ => envFlood)
      { last_request := some 0, stats := none } 1 (some 100) =
      (.tooMany (maxAllowed cfg0 7),
       { last_request := some 0,
         stats := some (update_user_stats none 0 false) }) :=
  (C1_range_over_max_rejected cfg0 7 0 (fun _ => envFlood)
    { last_request := some 0, stats := none } 1 100 (by decide)).1 (by decide)

/-! C5. The claim says an invalid-format request leaves the caller's
pacing state unchanged. In the source the rate-limit check runs first
(main.py:348) and records the request time before parsing, so an invalid
request does consume a pacing slot. -/

/-- C5 counterexample: a fresh user sending unparsable text at `now = 100`
is answered with the invalid-format error, yet the recorded last-request
timestamp changes from `none` to `some 100`. -/
theorem C5_counterexample :
    handle_message_link cfg0 7 100 "hello".toList (fun _ => envFlood)
      { last_request := none, stats := none } =
      (.invalidFormat,
       { last_request := some 100,
         stats := some (update_user_stats none 100 false) })
  ∧ (some 100 : Option Nat) ≠ (none : Option Nat) := by
  exact ⟨rfl, by decide⟩

/-- C5 amended: when the rate-limit check allows the request and the text
fails to parse, the error is surfaced immediately (no message is
fetched), but the caller's last-request timestamp has already been set to
`now` by the rate-limit check and a failed request is recorded: the
invalid request does consume a pacing slot. -/
theorem C5_invalid_format_consumes_slot (cfg : Config) (user_id : Int)
    (now : Nat) (text : List Char) (envs : Nat → FetchEnv) (st : UserState)
    (hallow : (is_rate_limited cfg user_id st.last_request now).1.1 = false)
    (hparse : parse_telegram_link text = none) :
    handle_message_link cfg user_id now text envs st =
      (.invalidFormat,
       { last_request := some now,
         stats := some (update_user_stats st.stats now false) }) := by
  unfold handle_message_link
  simp only [rl_allowed_snd cfg user_id st.last_request now hallow, hallow,
    Bool.false_eq_true, if_false, hparse]

/-- C5 witness: the amended statement for a user whose last request was
long ago, sending the text `hi` at `now = 100`. -/
theorem C5_witness :
    handle_message_link cfg0 7 100 "hi".toList (fun _ => envFlood)
      { last_request := some 0, stats := none } =
      (.invalidFormat,
       { last_request := some 100,
         stats := some (update_user_stats none 100 false) }) :=
  C5_invalid_format_consumes_slot cfg0 7 100 "hi".toList (fun _ => envFlood)
    { last_request := some 0, stats := none } (by decide) (by decide)

theorem chain_lt_range' (s n : Nat) :
    List.Chain' (fun x y => x < y) (List.range' s n) := by
  induction n generalizing s with
  | zero => simp
  | succ n ih =>
    rw [show List.range' s (n + 1) = s :: List.range' (s + 1) n from rfl]
    refine List.chain'_cons'.mpr ⟨?_, ih (s + 1)⟩
    intro b hb
    cases n with
    | zero => simp at hb
    | succ m =>
      rw [show List.range' (s + 1) (m + 1) = (s + 1) :: List.range' (s + 2) m
        from rfl] at hb
      simp at hb
      omega

/-- C7: whenever the handler's range path produces a batch of outcomes,
the recorded outcome list covers exactly the ids `start..end` and its
recording order is strictly ascending in message id: a later id's outcome
is never recorded before an earlier id's. -/
theorem C7_batch_ascending_order (cfg : Config) (user_id : Int) (now : Nat)
    (envs : Nat → FetchEnv) (st : UserState) (s e : Nat)
    (outs : List (Nat × Bool)) (a b : Nat) (st2 : UserState) (hse : s ≤ e)
    (h : processParsed cfg user_id now envs st s (some e) =
      (.batchDone outs a b, st2)) :
    outs.map Prod.fst = batchIds s e ∧
    List.Chain' (fun x y => x < y) (outs.map Prod.fst) := by
  have hswap : ¬ (s > e) := by omega
  unfold processParsed at h
  simp only [if_neg hswap] at h
  by_cases hc : e - s + 1 > maxAllowed cfg user_id
  · rw [if_pos hc] at h
    simp at h
  · rw [if_neg hc] at h
    simp only [Prod.mk.injEq, HandleResult.batchDone.injEq] at h
    obtain ⟨⟨h1, -, -⟩, -⟩ := h
    constructor
    · rw [← h1]
      simp [runBatch, List.map_map, Function.comp_def]
    · rw [← h1]
      have hch := chain_lt_range' s (e + 1 - s)
      simpa [runBatch, batchIds, List.map_map, Function.comp_def] using hch

/-- C7 witness: a three-id batch 5-7 whose outcomes are recorded in
ascending order. -/
theorem C7_witness :
    (([(5, false), (6, false), (7, false)] : List (Nat × Bool)).map Prod.fst
       = batchIds 5 7)
  ∧ List.Chain' (fun x y => x < y)
      (([(5, false), (6, false), (7, false)] : List (Nat × Bool)).map Prod.fst) :=
  C7_batch_ascending_order cfg0 7 0 (fun _ => envFlood)
    { last_request := some 0, stats := none } 5 7
    [(5, false), (6, false), (7, false)] 0 3
    { last_request := some 0, stats := some (update_user_stats none 0 true) }
    (by decide) (by decide)

/-! C8 lemmas: digit characters, stripping, prefix matching, greedy digit
scanning and the value of a digit string. -/

theorem isDigitCh_digitChar (d : Fin 10) : isDigitCh (digitChar d) = true := by
  fin_cases d <;> decide

theorem isSpaceCh_digitChar (d : Fin 10) : isSpaceCh (digitChar d) = false := by
  fin_cases d <;> decide

theorem toNat_digitChar (d : Fin 10) : (digitChar d).toNat - 48 = d.val := by
  fin_cases d <;> decide

theorem isSpaceCh_privPrefix : ∀ c ∈ privPrefix, isSpaceCh c = false := by
  decide

theorem isSpaceCh_digitsOf (ds : List (Fin 10)) :
    ∀ c ∈ digitsOf ds, isSpaceCh c = false := by
  intro c hc
  simp [digitsOf] at hc
  obtain ⟨d, -, rfl⟩ := hc
  exact isSpaceCh_digitChar d

theorem dropWhile_eq_self_of_all (p : Char → Bool) (cs : List Char)
    (h : ∀ c ∈ cs, p c = false) : cs.dropWhile p = cs := by
  cases cs with
  | nil => rfl
  | cons c t => simp [List.dropWhile_cons, h c (List.mem_cons_self c t)]

theorem stripChars_eq_self (cs : List Char)
    (h : ∀ c ∈ cs, isSpaceCh c = false) : stripChars cs = cs := by
  unfold stripChars
  rw [dropWhile_eq_self_of_all _ _ h,
    dropWhile_eq_self_of_all _ _ (fun c hc => h c (List.mem_reverse.mp hc)),
    List.reverse_reverse]

theorem dropPrefixL_append (p rest : List Char) :
    dropPrefixL p (p ++ rest) = some rest := by
  induction p with
  | nil => rfl
  | cons c t ih => simp [dropPrefixL, ih]

theorem takeDigits_digits_append (ds : List (Fin 10)) (rest : List Char)
    (h : takeDigits rest = ([], rest)) :
    takeDigits (digitsOf ds ++ rest) = (digitsOf ds, rest) := by
  induction ds with
  | nil => simpa [digitsOf]
  | cons d t ih =>
    simp only [digitsOf, List.map_cons, List.cons_append] at ih ⊢
    simp [takeDigits, isDigitCh_digitChar d, ih]

theorem foldl_digits_acc (cs : List Char) (a : Nat) :
    cs.foldl (fun acc c => acc * 10 + (c.toNat - 48)) a =
      a * 10 ^ cs.length + cs.foldl (fun acc c => acc * 10 + (c.toNat - 48)) 0 := by
  induction cs generalizing a with
  | nil => simp
  | cons c t ih =>
    simp only [List.foldl_cons, List.length_cons]
    rw [ih (a * 10 + (c.toNat - 48)), ih (0 * 10 + (c.toNat - 48))]
    ring

theorem foldl_digitsOf (ds : List (Fin 10)) :
    (digitsOf ds).foldl (fun acc c => acc * 10 + (c.toNat - 48)) 0 =
      natOfDigits ds := by
  unfold digitsOf natOfDigits
  rw [List.foldl_map]
  congr 1
  funext acc d
  rw [toNat_digitChar]

theorem digitsToNat_digitsOf (ds : List (Fin 10)) :
    digitsToNat (digitsOf ds) = natOfDigits ds :=
  foldl_digitsOf ds

theorem digitsToNat_cons100 (ds : List (Fin 10)) :
    digitsToNat ('1' :: '0' :: '0' :: digitsOf ds) =
      100 * 10 ^ ds.length + natOfDigits ds := by
  have h100 : digitsToNat ('1' :: '0' :: '0' :: digitsOf ds) =
      (digitsOf ds).foldl (fun acc c => acc * 10 + (c.toNat - 48)) 100 := rfl
  rw [h100, foldl_digits_acc, foldl_digitsOf]
  simp [digitsOf]

/-- C8: for every private-channel link with a numeric id given as a digit
string `ds` and a message id `ms`, the parser canonicalizes the short id
by prepending the supergroup prefix: the produced `chat_id` is
`int("-100" + ds)`, i.e. `-(100 * 10 ^ |ds| + value ds)`, and the start
message id is `value ms`. -/
theorem C8_private_id_canonical (ds ms : List (Fin 10))
    (hds : ds ≠ []) (hms : ms ≠ []) :
    parse_telegram_link (privPrefix ++ digitsOf ds ++ '/' :: digitsOf ms) =
      some (.privateLink
        (-(Int.ofNat (100 * 10 ^ ds.length + natOfDigits ds)))
        (natOfDigits ms) none) := by
  have hstrip : stripChars (privPrefix ++ digitsOf ds ++ '/' :: digitsOf ms) =
      privPrefix ++ digitsOf ds ++ '/' :: digitsOf ms := by
    apply stripChars_eq_self
    intro c hc
    rcases List.mem_append.mp hc with h | h
    · rcases List.mem_append.mp h with h1 | h1
      · exact isSpaceCh_privPrefix c h1
      · exact isSpaceCh_digitsOf ds c h1
    · rcases List.mem_cons.mp h with rfl | h1
      · decide
      · exact isSpaceCh_digitsOf ms c h1
  have hdsne : (digitsOf ds).isEmpty = false := by
    cases ds with
    | nil => exact absurd rfl hds
    | cons d t => simp [digitsOf]
  have hmsne : (digitsOf ms).isEmpty = false := by
    cases ms with
    | nil => exact absurd rfl hms
    | cons d t => simp [digitsOf]
  have h2 : takeDigits (digitsOf ds ++ '/' :: digitsOf ms) =
      (digitsOf ds, '/' :: digitsOf ms) :=
    takeDigits_digits_append ds _
      (by simp [takeDigits, show isDigitCh '/' = false from rfl])
  have h3 : takeDigits (digitsOf ms) = (digitsOf ms, []) := by
    have := takeDigits_digits_append ms [] rfl
    simpa using this
  have h4 : parseMsgIds (digitsOf ms) = some (natOfDigits ms, none) := by
    unfold parseMsgIds
    rw [h3]
    simp only [hmsne, Bool.false_eq_true, if_false]
    rw [digitsToNat_digitsOf]
  have h5 : parsePrivateLink (privPrefix ++ digitsOf ds ++ '/' :: digitsOf ms) =
      some (.privateLink
        (-(Int.ofNat (digitsToNat ('1' :: '0' :: '0' :: digitsOf ds))))
        (natOfDigits ms) none) := by
    unfold parsePrivateLink
    rw [List.append_assoc, dropPrefixL_append]
    simp only [h2, hdsne, Bool.false_eq_true, if_false, h4]
  simp only [parse_telegram_link, hstrip, h5]
  rw [digitsToNat_cons100]

/-- C8 witness: the link `https://t.me/c/12/5` yields
`chat_id = -10012 = -(100 * 100 + 12)` and start message 5. -/
theorem C8_witness :
    parse_telegram_link (privPrefix ++ digitsOf [1, 2] ++ '/' :: digitsOf [5]) =
      some (.privateLink
        (-(Int.ofNat (100 * 10 ^ ([1, 2] : List (Fin 10)).length +
           natOfDigits [1, 2])))
        (natOfDigits [5]) none) :=
  C8_private_id_canonical [1, 2] [5] (by decide) (by decide)

end SaveRestricted
